import Mathlib

/-!
Verification development for the ShipEdge Playwright automation repository.

We shallowly embed the algorithmic parts the specification talks about:

* the inline Address Book modal-open retry loop of
  `ShipedgeOrdersPage.startCreateOrderFlow`
  (src/page-objects/shipedge-orders-page.ts, lines 229-245), generalized over
  `maxAttempts` (the code instantiates it with 3), with explicit wall-clock
  time accounting;
* `waitForOrderCreated` (same file, lines 93-112);
* `waitForAddressBookToLoad` (same file, lines 145-174), in particular its
  transient DataTables processing-indicator probe;
* the USPS shipping-method fallback of `startCreateOrderFlow`
  (same file, lines 334-365);
* `parseCsvLine` (src/lib/helper-functions.ts);
* `BasePage.isElementVisible` / `isElementNotVisible` (src/unnamed/part_014).

Asynchronous browser interactions are modelled by explicit outcome
parameters: a Playwright `waitFor`/`click` call that can reject is an
`Except String` value (or a function producing one per attempt), and elapsed
wall-clock time is tracked as a natural number of milliseconds.
-/

namespace ShipEdge

/-! ## The Address Book modal-open retry loop

Source (src/page-objects/shipedge-orders-page.ts, 229-245):

    let isModalVisible = false;
    for (let i = 0; i < 3; i++) {
        await this.addressBookButton.click({ force: true });
        try {
            await this.addressBookModal.waitFor({ state: 'visible', timeout: 2000 });
            isModalVisible = true;
            break; // Modal is open!
        } catch {
            console.log(`Click attempt $\x7bi + 1\x7d failed ...`);
            await this.page.waitForTimeout(500);
        }
    }
    if (!isModalVisible) {
        throw new Error('Failed to open Address Book modal after 3 attempts.');
    }

The environment is modelled per attempt index `i` (0-based, as in the code):
`click i` is the outcome of the i-th button click (the click itself can
reject), `clickTime i` the wall-clock milliseconds it consumed, `cond i`
whether the modal becomes visible within the 2000 ms `waitFor` window that
follows the i-th click, and `condTime i` the time a successful `waitFor`
took.  `perAttempt` is the condition-wait timeout (2000 in the code) and
`delay` the inter-attempt pause (500 in the code).
-/

/-- One run of the loop body starting at attempt index `i` with `fuel`
iterations remaining.  Returns `(clicks performed, elapsed ms, result)`,
where `.ok true` means the loop exited with `isModalVisible = true`,
`.ok false` means the loop exhausted its iterations with the flag still
false, and `.error e` means the click itself rejected with `e` (the
`click` call is outside the `try`, so its failure propagates). -/
def retryAux (click : Nat → Except String Unit) (clickTime : Nat → Nat)
    (cond : Nat → Bool) (condTime : Nat → Nat)
    (perAttempt delay : Nat) : Nat → Nat → Nat × Nat × Except String Bool
  | _, 0 => (0, 0, Except.ok false)
  | i, fuel + 1 =>
    match click i with
    | Except.error e => (1, clickTime i, Except.error e)
    | Except.ok _ =>
      if cond i then
        (1, clickTime i + condTime i, Except.ok true)
      else
        let r := retryAux click clickTime cond condTime perAttempt delay (i + 1) fuel
        (r.1 + 1, clickTime i + perAttempt + delay + r.2.1, r.2.2)

/-- The modal-open step of `startCreateOrderFlow`, generalized over the
attempt bound `maxAttempts` (the code hardcodes 3, and its failure message
hardcodes the matching "3").  Returns `(clicks, elapsed ms, outcome)`. -/
def openAddressBookModal (click : Nat → Except String Unit) (clickTime : Nat → Nat)
    (cond : Nat → Bool) (condTime : Nat → Nat)
    (perAttempt delay maxAttempts : Nat) : Nat × Nat × Except String Unit :=
  let r := retryAux click clickTime cond condTime perAttempt delay 0 maxAttempts
  match r.2.2 with
  | Except.error e => (r.1, r.2.1, Except.error e)
  | Except.ok true => (r.1, r.2.1, Except.ok ())
  | Except.ok false =>
    (r.1, r.2.1,
      Except.error ("Failed to open Address Book modal after "
        ++ toString maxAttempts ++ " attempts."))

/-- The loop exactly as instantiated in `startCreateOrderFlow`:
per-attempt `waitFor` timeout 2000 ms, retry delay 500 ms, 3 attempts. -/
def startCreateOrderFlowModalStep (click : Nat → Except String Unit)
    (clickTime : Nat → Nat) (cond : Nat → Bool) (condTime : Nat → Nat) :
    Nat × Nat × Except String Unit :=
  openAddressBookModal click clickTime cond condTime 2000 500 3

/-! ## waitForOrderCreated

Source (src/page-objects/shipedge-orders-page.ts, 93-112): the
`waitForURL` wait for the post-save redirect is wrapped in a `try`/`catch`
whose `catch` only logs; the success-message visibility probe uses
`.catch(() => false)`; when a message is visible its text is read (that
read is the only uncaught await); in every other case the method just logs
and returns normally. -/

/-- `waitForOrderCreated`.  `redirectHappened` records whether the URL left
`typeorder=regular` within the timeout (the code ignores the distinction
beyond logging), `msgVisibleRaw` the outcome of the success-message
visibility probe, `msgText` the outcome of reading its text. -/
def waitForOrderCreated (redirectHappened : Bool)
    (msgVisibleRaw : Except String Bool) (msgText : Except String String) :
    Except String Unit :=
  let hasMessage : Bool :=
    match msgVisibleRaw with
    | Except.ok b => b
    | Except.error _ => false
  if hasMessage then
    match msgText with
    | Except.ok _ => Except.ok ()
    | Except.error e => Except.error e
  else
    Except.ok ()

/-! ## waitForAddressBookToLoad

Source (src/page-objects/shipedge-orders-page.ts, 145-174).  Step 2 probes
the DataTables processing indicator: `isVisible({ timeout: 2000 })` tells
whether it showed up; if so the code waits for it to hide; the whole block
sits in a `try` with an empty `catch`.  Steps 1 and 3 (`waitFor` on the
modal, the first table row, and the first Add button) are uncaught. -/

/-- Step 2 of `waitForAddressBookToLoad`: the transient
processing-indicator probe.  `appears` is the outcome of the short
`isVisible` probe, `hides` the outcome of the subsequent wait for `hidden`
(consulted only when the indicator appeared).  The surrounding empty
`catch` swallows every rejection. -/
def processingIndicatorWait (appears : Except String Bool)
    (hides : Except String Unit) : Except String Unit :=
  match appears with
  | Except.error _ => Except.ok ()
  | Except.ok false => Except.ok ()
  | Except.ok true =>
    match hides with
    | Except.ok _ => Except.ok ()
    | Except.error _ => Except.ok ()

/-- `waitForAddressBookToLoad`: modal-visible wait, then the transient
processing-indicator probe, then the first-row and first-Add-button
waits. -/
def waitForAddressBookToLoad (modalVisible : Except String Unit)
    (appears : Except String Bool) (hides : Except String Unit)
    (firstRowVisible : Except String Unit) (addButtonVisible : Except String Unit) :
    Except String Unit :=
  match modalVisible with
  | Except.error e => Except.error e
  | Except.ok _ =>
    match processingIndicatorWait appears hides with
    | Except.error e => Except.error e
    | Except.ok _ =>
      match firstRowVisible with
      | Except.error e => Except.error e
      | Except.ok _ =>
        match addButtonVisible with
        | Except.error e => Except.error e
        | Except.ok _ => Except.ok ()

/-! ## parseCsvLine

Source (src/lib/helper-functions.ts, 1-29):

    export const parseCsvLine = (line: string): string[] => \x7b
        const values: string[] = [];
        let current = '';
        let inQuotes = false;
        for (let i = 0; i < line.length; i++) \x7b
            const char = line[i];
            if (char === quote) \x7b
                if (inQuotes && line[i + 1] === quote) \x7b current += quote; i++; \x7d
                else \x7b inQuotes = !inQuotes; \x7d
                continue;
            \x7d
            if (char === comma && !inQuotes) \x7b values.push(current); current = ''; continue; \x7d
            current += char;
        \x7d
        values.push(current);
        return values.map((value) => value.trim());
    \x7d;

Strings are modelled as `List Char`; JavaScript `String.prototype.trim`
(strip leading and trailing whitespace) is `csvTrim` below. -/

/-- JavaScript `value.trim()`: drop leading and trailing whitespace. -/
def csvTrim (l : List Char) : List Char :=
  ((l.dropWhile Char.isWhitespace).reverse.dropWhile Char.isWhitespace).reverse

/-- The scanning loop of `parseCsvLine`: accumulated `values`, the
`current` field, the `inQuotes` flag, and the remaining input.  A quote
while in quotes followed by another quote appends one literal quote and
consumes both; otherwise a quote toggles `inQuotes`; a comma outside
quotes ends the current field; any other character (including a comma
inside quotes) is appended to the current field.  The final `current` is
pushed after the loop. -/
def parseCsvAux : List (List Char) → List Char → Bool → List Char → List (List Char)
  | values, current, _, [] => values ++ [current]
  | values, current, true, '"' :: '"' :: rest => parseCsvAux values (current ++ ['"']) true rest
  | values, current, true, '"' :: rest => parseCsvAux values current false rest
  | values, current, false, '"' :: rest => parseCsvAux values current true rest
  | values, current, false, ',' :: rest => parseCsvAux (values ++ [current]) [] false rest
  | values, current, inQuotes, c :: rest => parseCsvAux values (current ++ [c]) inQuotes rest

/-- `parseCsvLine`: scan, then trim every field. -/
def parseCsvLine (line : List Char) : List (List Char) :=
  (parseCsvAux [] [] false line).map csvTrim

/-- The number of commas the scanner meets while `inQuotes` is false,
tracking the quote state with the same rules as `parseCsvAux`. -/
def countUnquotedCommas : Bool → List Char → Nat
  | _, [] => 0
  | true, '"' :: '"' :: rest => countUnquotedCommas true rest
  | true, '"' :: rest => countUnquotedCommas false rest
  | false, '"' :: rest => countUnquotedCommas true rest
  | false, ',' :: rest => countUnquotedCommas false rest + 1
  | b, _ :: rest => countUnquotedCommas b rest

/-! ## The USPS shipping-method fallback

Source (src/page-objects/shipedge-orders-page.ts, 334-365).  When the
preferred method "EM" is unavailable, the code collects all
`option[carrier_id="3"]` elements, keeps those whose `style` attribute
does not contain "display: none" / "display:none" and whose `value`
attribute is present with non-blank trim, and picks
`availableOptions[Math.floor(Math.random() * availableOptions.length)]`;
if the list is empty it throws. -/

/-- One `<option>` of the ship-method select as the fallback reads it:
its `style` attribute and its `value` attribute (`getAttribute` returns
null, modelled `none`, when absent). -/
structure ShipOption where
  style : Option (List Char)
  value : Option (List Char)

/-- `sub.isPrefixOf s || containsSub rest sub`: does `sub` occur inside
`s` (JavaScript `String.prototype.includes`)? -/
def containsSub (sub : List Char) : List Char → Bool
  | [] => sub.isEmpty
  | c :: rest => sub.isPrefixOf (c :: rest) || containsSub sub rest

/-- `style?.includes('display: none') || style?.includes('display:none')`
(with the optional-chaining null giving `false`). -/
def isHiddenStyle (style : Option (List Char)) : Bool :=
  match style with
  | none => false
  | some s =>
    containsSub "display: none".toList s || containsSub "display:none".toList s

/-- The filter of the fallback loop: keep the raw `value` of every option
that is not hidden and whose value is present and non-blank. -/
def availableUspsOptions (opts : List ShipOption) : List (List Char) :=
  opts.filterMap fun o =>
    match o.value with
    | none => none
    | some v =>
      if isHiddenStyle o.style then none
      else if csvTrim v = [] then none
      else some v

/-- The fallback selection.  `randomIndex len` stands for
`Math.floor(Math.random() * len)`; since `Math.random()` lies in `[0, 1)`,
it satisfies `randomIndex len < len` whenever `0 < len` (a hypothesis of
the theorems below).  Returns the selected value or the thrown error. -/
def selectShipMethodFallback (opts : List ShipOption) (randomIndex : Nat → Nat) :
    Except String (List Char) :=
  let availableOptions := availableUspsOptions opts
  if availableOptions.length = 0 then
    Except.error "No available USPS shipping methods found"
  else
    Except.ok (availableOptions.getD (randomIndex availableOptions.length) [])

/-! ## BasePage.isElementVisible / isElementNotVisible

Source (src/unnamed/part_014, 34-55): both take an optional timeout,
default it to `defaultTimeout` (15000), run `locator.waitFor` for the
corresponding state inside `try`, return `true` on success and `false`
when the wait rejects.  The underlying `waitFor` is modelled as a
function from the effective timeout to its outcome. -/

/-- `protected readonly defaultTimeout = 15000`. -/
def defaultTimeout : Nat := 15000

/-- `isElementVisible`: the result is `Except`-valued so that a
propagated exception would be observable as `.error`; the method never
produces one. -/
def isElementVisible (waitForVisible : Nat → Except String Unit)
    (timeout : Option Nat) : Except String Bool :=
  let effectiveTimeout := timeout.getD defaultTimeout
  match waitForVisible effectiveTimeout with
  | Except.ok _ => Except.ok true
  | Except.error _ => Except.ok false

/-- `isElementNotVisible`: same shape, waiting for the `hidden` state. -/
def isElementNotVisible (waitForHidden : Nat → Except String Unit)
    (timeout : Option Nat) : Except String Bool :=
  let effectiveTimeout := timeout.getD defaultTimeout
  match waitForHidden effectiveTimeout with
  | Except.ok _ => Except.ok true
  | Except.error _ => Except.ok false

/-! ## Helper lemmas -/

lemma dropWhile_head?_not (p : Char → Bool) (l : List Char) (c : Char)
    (h : (l.dropWhile p).head? = some c) : p c = false := by
  induction l with
  | nil => simp [List.dropWhile] at h
  | cons x xs ih =>
    rw [List.dropWhile_cons] at h
    by_cases hx : p x
    · simp [hx] at h
      exact ih h
    · simp [hx] at h
      rw [← h]
      simpa using hx

lemma dropWhile_getLast?_of_ne_nil (p : Char → Bool) (l : List Char)
    (h : l.dropWhile p ≠ []) : (l.dropWhile p).getLast? = l.getLast? := by
  induction l with
  | nil => simp [List.dropWhile] at h
  | cons x xs ih =>
    rw [List.dropWhile_cons] at h ⊢
    by_cases hx : p x
    · simp only [if_pos hx] at h ⊢
      have hxs : xs ≠ [] := by
        intro hh
        rw [hh] at h
        simp [List.dropWhile] at h
      obtain ⟨y, ys, rfl⟩ := List.exists_cons_of_ne_nil hxs
      rw [ih h, List.getLast?_cons_cons]
    · simp only [if_neg hx]

/-- A non-empty trimmed field starts with a non-whitespace character. -/
lemma csvTrim_head?_not_ws (l : List Char) (c : Char)
    (h : (csvTrim l).head? = some c) : c.isWhitespace = false := by
  unfold csvTrim at h
  rw [List.head?_reverse] at h
  have hne : (l.dropWhile Char.isWhitespace).reverse.dropWhile Char.isWhitespace ≠ [] := by
    intro hh
    rw [hh] at h
    simp at h
  rw [dropWhile_getLast?_of_ne_nil _ _ hne, List.getLast?_reverse] at h
  exact dropWhile_head?_not _ _ _ h

/-- A non-empty trimmed field ends with a non-whitespace character. -/
lemma csvTrim_getLast?_not_ws (l : List Char) (c : Char)
    (h : (csvTrim l).getLast? = some c) : c.isWhitespace = false := by
  unfold csvTrim at h
  rw [List.getLast?_reverse] at h
  exact dropWhile_head?_not _ _ _ h

/-! ## Lemmas on the retry loop -/

section RetryLemmas

variable (click : Nat → Except String Unit) (clickTime : Nat → Nat)
  (cond : Nat → Bool) (condTime : Nat → Nat) (perAttempt delay : Nat)

/-- One-step unfolding of the loop at an attempt whose click succeeds and
whose condition check fails. -/
lemma retryAux_step (i fuel : Nat) (hclick : click i = Except.ok ())
    (hcond : cond i = false) :
    retryAux click clickTime cond condTime perAttempt delay i (fuel + 1) =
      ((retryAux click clickTime cond condTime perAttempt delay (i + 1) fuel).1 + 1,
       clickTime i + perAttempt + delay +
         (retryAux click clickTime cond condTime perAttempt delay (i + 1) fuel).2.1,
       (retryAux click clickTime cond condTime perAttempt delay (i + 1) fuel).2.2) := by
  simp only [retryAux]
  rw [hclick]
  simp [hcond]

/-- When the condition is false on every attempt and the click never
rejects, the loop performs one click per unit of fuel and exits with the
flag still false. -/
lemma retryAux_allFalse (hcond : ∀ j, cond j = false)
    (hclick : ∀ j, click j = Except.ok ()) : ∀ (fuel i : Nat),
    (retryAux click clickTime cond condTime perAttempt delay i fuel).1 = fuel ∧
    (retryAux click clickTime cond condTime perAttempt delay i fuel).2.2 = Except.ok false := by
  intro fuel
  induction fuel with
  | zero => intro i; simp [retryAux]
  | succ n ih =>
    intro i
    simp only [retryAux]
    rw [hclick i]
    simp only [hcond i]
    simpa using ih (i + 1)

/-- When the condition first turns true on the check after the `(m+1)`-st
click (0-based offset `m` from the start index `i`) and no click up to
that point rejects, the loop performs exactly `m + 1` clicks and exits
with the flag true. -/
lemma retryAux_firstTrue : ∀ (m fuel i : Nat),
    (∀ j, j < m → cond (i + j) = false) → cond (i + m) = true →
    (∀ j, j ≤ m → click (i + j) = Except.ok ()) → m < fuel →
    (retryAux click clickTime cond condTime perAttempt delay i fuel).1 = m + 1 ∧
    (retryAux click clickTime cond condTime perAttempt delay i fuel).2.2 = Except.ok true := by
  intro m
  induction m with
  | zero =>
    intro fuel i _ htrue hclick hlt
    obtain ⟨fuel, rfl⟩ : ∃ k, fuel = k + 1 := ⟨fuel - 1, by omega⟩
    have h0 := hclick 0 (Nat.le_refl 0)
    simp only [Nat.add_zero] at h0 htrue
    simp [retryAux, h0, htrue]
  | succ m ih =>
    intro fuel i hfalse htrue hclick hlt
    obtain ⟨fuel, rfl⟩ : ∃ k, fuel = k + 1 := ⟨fuel - 1, by omega⟩
    have h0 : click i = Except.ok () := by
      have := hclick 0 (Nat.zero_le _)
      simpa using this
    have hc0 : cond i = false := by
      have := hfalse 0 (Nat.succ_pos m)
      simpa using this
    simp only [retryAux]
    rw [h0]
    simp only [hc0]
    have hrec := ih fuel (i + 1)
      (fun j hj => by
        have := hfalse (j + 1) (by omega)
        simpa [Nat.add_assoc, Nat.add_comm 1 j] using this)
      (by
        have := htrue
        simpa [Nat.add_assoc, Nat.add_comm 1 m] using this)
      (fun j hj => by
        have := hclick (j + 1) (by omega)
        simpa [Nat.add_assoc, Nat.add_comm 1 j] using this)
      (by omega)
    simpa using hrec

/-- When every attempt before offset `m` clicks fine but fails its
condition check, and the click at offset `m` rejects with `e`, the loop
stops right there: `m + 1` clicks, error `e`. -/
lemma retryAux_clickError (e : String) : ∀ (m fuel i : Nat),
    (∀ j, j < m → click (i + j) = Except.ok () ∧ cond (i + j) = false) →
    click (i + m) = Except.error e → m < fuel →
    (retryAux click clickTime cond condTime perAttempt delay i fuel).1 = m + 1 ∧
    (retryAux click clickTime cond condTime perAttempt delay i fuel).2.2 = Except.error e := by
  intro m
  induction m with
  | zero =>
    intro fuel i _ herr hlt
    obtain ⟨fuel, rfl⟩ : ∃ k, fuel = k + 1 := ⟨fuel - 1, by omega⟩
    simp only [Nat.add_zero] at herr
    simp [retryAux, herr]
  | succ m ih =>
    intro fuel i hok herr hlt
    obtain ⟨fuel, rfl⟩ : ∃ k, fuel = k + 1 := ⟨fuel - 1, by omega⟩
    have h0 : click i = Except.ok () := by
      have := (hok 0 (Nat.succ_pos m)).1
      simpa using this
    have hc0 : cond i = false := by
      have := (hok 0 (Nat.succ_pos m)).2
      simpa using this
    simp only [retryAux]
    rw [h0]
    simp only [hc0]
    have hrec := ih fuel (i + 1)
      (fun j hj => by
        have := hok (j + 1) (by omega)
        simpa [Nat.add_assoc, Nat.add_comm 1 j] using this)
      (by
        have := herr
        simpa [Nat.add_assoc, Nat.add_comm 1 m] using this)
      (by omega)
    simpa using hrec

/-- Under the timeout scenario (condition always false, clicks fine),
adding one more unit of fuel never shrinks the elapsed time. -/
lemma retryAux_elapsed_fuel_step (hcond : ∀ j, cond j = false)
    (hclick : ∀ j, click j = Except.ok ()) : ∀ (fuel i : Nat),
    (retryAux click clickTime cond condTime perAttempt delay i fuel).2.1 ≤
    (retryAux click clickTime cond condTime perAttempt delay i (fuel + 1)).2.1 := by
  intro fuel
  induction fuel with
  | zero => intro i; simp [retryAux]
  | succ n ih =>
    intro i
    rw [retryAux_step click clickTime cond condTime perAttempt delay i n
      (hclick i) (hcond i),
      retryAux_step click clickTime cond condTime perAttempt delay i (n + 1)
      (hclick i) (hcond i)]
    have := ih (i + 1)
    dsimp only at this ⊢
    omega

/-- Elapsed time of the timed-out loop is monotone in the fuel. -/
lemma retryAux_elapsed_mono (hcond : ∀ j, cond j = false)
    (hclick : ∀ j, click j = Except.ok ()) (n₁ n₂ : Nat) (hle : n₁ ≤ n₂) (i : Nat) :
    (retryAux click clickTime cond condTime perAttempt delay i n₁).2.1 ≤
    (retryAux click clickTime cond condTime perAttempt delay i n₂).2.1 := by
  induction n₂, hle using Nat.le_induction with
  | base => exact Nat.le_refl _
  | succ n hn ih =>
    exact Nat.le_trans ih
      (retryAux_elapsed_fuel_step click clickTime cond condTime perAttempt delay
        hcond hclick n i)

end RetryLemmas

/-- The click count and the elapsed time of `openAddressBookModal` are
those of the underlying loop, whatever the outcome. -/
lemma openAddressBookModal_clicks (click : Nat → Except String Unit) (clickTime : Nat → Nat)
    (cond : Nat → Bool) (condTime : Nat → Nat) (p d n : Nat) :
    (openAddressBookModal click clickTime cond condTime p d n).1 =
      (retryAux click clickTime cond condTime p d 0 n).1 ∧
    (openAddressBookModal click clickTime cond condTime p d n).2.1 =
      (retryAux click clickTime cond condTime p d 0 n).2.1 := by
  unfold openAddressBookModal
  rcases h : (retryAux click clickTime cond condTime p d 0 n).2.2 with e | b
  · simp [h]
  · cases b <;> simp [h]

/-- Timeout scenario at the `openAddressBookModal` level: `n` clicks and
the convergence-failure error naming `n` attempts. -/
lemma openAddressBookModal_allFalse (click : Nat → Except String Unit) (clickTime : Nat → Nat)
    (cond : Nat → Bool) (condTime : Nat → Nat) (p d n : Nat)
    (hcond : ∀ j, cond j = false) (hclick : ∀ j, click j = Except.ok ()) :
    (openAddressBookModal click clickTime cond condTime p d n).1 = n ∧
    (openAddressBookModal click clickTime cond condTime p d n).2.2 =
      Except.error ("Failed to open Address Book modal after " ++ toString n ++ " attempts.") := by
  obtain ⟨h1, h2⟩ := retryAux_allFalse click clickTime cond condTime p d hcond hclick n 0
  unfold openAddressBookModal
  simp [h1, h2]

/-- When the loop exits with the flag true, `openAddressBookModal`
returns success. -/
lemma openAddressBookModal_of_ok_true (click : Nat → Except String Unit) (clickTime : Nat → Nat)
    (cond : Nat → Bool) (condTime : Nat → Nat) (p d n : Nat)
    (h : (retryAux click clickTime cond condTime p d 0 n).2.2 = Except.ok true) :
    (openAddressBookModal click clickTime cond condTime p d n).2.2 = Except.ok () := by
  unfold openAddressBookModal
  simp [h]

/-- When the loop aborts with a click rejection, `openAddressBookModal`
propagates exactly that error. -/
lemma openAddressBookModal_of_error (click : Nat → Except String Unit) (clickTime : Nat → Nat)
    (cond : Nat → Bool) (condTime : Nat → Nat) (p d n : Nat) (e : String)
    (h : (retryAux click clickTime cond condTime p d 0 n).2.2 = Except.error e) :
    (openAddressBookModal click clickTime cond condTime p d n).2.2 = Except.error e := by
  unfold openAddressBookModal
  simp [h]

/-- The field count of the scanner: one more field than unquoted commas,
on top of the fields already accumulated. -/
lemma parseCsvAux_length (values : List (List Char)) (current : List Char)
    (b : Bool) (l : List Char) :
    (parseCsvAux values current b l).length = values.length + 1 + countUnquotedCommas b l := by
  induction values, current, b, l using parseCsvAux.induct <;>
    simp_all [parseCsvAux, countUnquotedCommas] <;> omega

/-! ## The claims -/

/-- C1: in the Address Book modal-open retry of `startCreateOrderFlow`
(maxAttempts = 3), if the modal never becomes visible on any check and the
clicks themselves succeed, the Address Book button is clicked exactly 3
times and the loop then throws the convergence failure reporting 3
attempts. -/
theorem modal_retry_timeout_three_attempts (click : Nat → Except String Unit)
    (clickTime : Nat → Nat) (cond : Nat → Bool) (condTime : Nat → Nat)
    (hcond : ∀ j, cond j = false) (hclick : ∀ j, click j = Except.ok ()) :
    (startCreateOrderFlowModalStep click clickTime cond condTime).1 = 3 ∧
    (startCreateOrderFlowModalStep click clickTime cond condTime).2.2 =
      Except.error "Failed to open Address Book modal after 3 attempts." := by
  have h := openAddressBookModal_allFalse click clickTime cond condTime 2000 500 3 hcond hclick
  exact h

/-- Witness for C1. -/
theorem modal_retry_timeout_three_attempts_witness :
    (startCreateOrderFlowModalStep (fun _ => Except.ok ()) (fun _ => 0)
      (fun _ => false) (fun _ => 0)).1 = 3 ∧
    (startCreateOrderFlowModalStep (fun _ => Except.ok ()) (fun _ => 0)
      (fun _ => false) (fun _ => 0)).2.2 =
      Except.error "Failed to open Address Book modal after 3 attempts." :=
  modal_retry_timeout_three_attempts (fun _ => Except.ok ()) (fun _ => 0)
    (fun _ => false) (fun _ => 0) (fun _ => rfl) (fun _ => rfl)

/-- C2 counterexample: when the modal is already open (the visibility
check succeeds on every attempt, in particular before any effect of the
first click), the code still clicks the Address Book button once — the
loop clicks first and checks afterwards — so the action count is 1, not
the 0 the claim requires. -/
theorem modal_preopen_counterexample :
    (startCreateOrderFlowModalStep (fun _ => Except.ok ()) (fun _ => 0)
      (fun _ => true) (fun _ => 0)).1 = 1 ∧
    (startCreateOrderFlowModalStep (fun _ => Except.ok ()) (fun _ => 0)
      (fun _ => true) (fun _ => 0)).2.2 = Except.ok () ∧
    (1 : Nat) ≠ 0 :=
  ⟨rfl, rfl, by decide⟩

/-- C2 amended: if the condition is already true before the first check,
the action is still invoked exactly once (the loop performs the action
before its first condition check) and the call then returns
successfully after that single attempt. -/
theorem modal_preopen_one_click (click : Nat → Except String Unit)
    (clickTime : Nat → Nat) (cond : Nat → Bool) (condTime : Nat → Nat) (n : Nat)
    (hn : 0 < n) (hclick : click 0 = Except.ok ()) (hcond : cond 0 = true) :
    (openAddressBookModal click clickTime cond condTime 2000 500 n).1 = 1 ∧
    (openAddressBookModal click clickTime cond condTime 2000 500 n).2.2 = Except.ok () := by
  have h := retryAux_firstTrue click clickTime cond condTime 2000 500 0 n 0
    (fun j hj => absurd hj (Nat.not_lt_zero j)) (by simpa using hcond)
    (fun j hj => by
      have : j = 0 := Nat.le_zero.mp hj
      subst this
      simpa using hclick)
    hn
  obtain ⟨hc, _⟩ := openAddressBookModal_clicks click clickTime cond condTime 2000 500 n
  exact ⟨by rw [hc, h.1],
    openAddressBookModal_of_ok_true click clickTime cond condTime 2000 500 n h.2⟩

/-- Witness for the amended C2. -/
theorem modal_preopen_one_click_witness :
    (openAddressBookModal (fun _ => Except.ok ()) (fun _ => 0) (fun _ => true)
      (fun _ => 0) 2000 500 3).1 = 1 ∧
    (openAddressBookModal (fun _ => Except.ok ()) (fun _ => 0) (fun _ => true)
      (fun _ => 0) 2000 500 3).2.2 = Except.ok () :=
  modal_preopen_one_click (fun _ => Except.ok ()) (fun _ => 0) (fun _ => true)
    (fun _ => 0) 3 (by decide) rfl rfl

/-- C3: if the condition first becomes true on attempt `k` (1-indexed)
with `k ≤ n` and no click up to attempt `k` rejects, the action is
invoked exactly `k` times (not `k + 1`) and the call returns
successfully. -/
theorem modal_retry_converges_at_k (click : Nat → Except String Unit)
    (clickTime : Nat → Nat) (cond : Nat → Bool) (condTime : Nat → Nat) (n k : Nat)
    (hk1 : 1 ≤ k) (hkn : k ≤ n)
    (hfalse : ∀ j, j < k - 1 → cond j = false) (htrue : cond (k - 1) = true)
    (hclick : ∀ j, j < k → click j = Except.ok ()) :
    (openAddressBookModal click clickTime cond condTime 2000 500 n).1 = k ∧
    (openAddressBookModal click clickTime cond condTime 2000 500 n).2.2 = Except.ok () := by
  have h := retryAux_firstTrue click clickTime cond condTime 2000 500 (k - 1) n 0
    (fun j hj => by simpa using hfalse j hj) (by simpa using htrue)
    (fun j hj => by
      have : j < k := by omega
      simpa using hclick j this)
    (by omega)
  obtain ⟨hc, _⟩ := openAddressBookModal_clicks click clickTime cond condTime 2000 500 n
  refine ⟨?_, openAddressBookModal_of_ok_true click clickTime cond condTime 2000 500 n h.2⟩
  rw [hc, h.1]
  omega

/-- Witness for C3: `maxAttempts = 3`, the condition flips true on the
2nd check, 2 clicks, success. -/
theorem modal_retry_converges_at_k_witness :
    (openAddressBookModal (fun _ => Except.ok ()) (fun _ => 0)
      (fun i => decide (i = 1)) (fun _ => 0) 2000 500 3).1 = 2 ∧
    (openAddressBookModal (fun _ => Except.ok ()) (fun _ => 0)
      (fun i => decide (i = 1)) (fun _ => 0) 2000 500 3).2.2 = Except.ok () :=
  modal_retry_converges_at_k (fun _ => Except.ok ()) (fun _ => 0)
    (fun i => decide (i = 1)) (fun _ => 0) 3 2 (by decide) (by decide)
    (fun j hj => by interval_cases j <;> rfl) (by decide)
    (fun j hj => rfl)

/-- C4: if the click itself rejects on attempt `j` (1-indexed, `j ≤ n`)
while every earlier attempt clicked fine and failed only its condition
check, the loop stops with exactly `j` action invocations and propagates
the click's own error — attempt `j + 1` is never started and the error is
not the convergence-timeout message. -/
theorem modal_retry_click_error_propagates (click : Nat → Except String Unit)
    (clickTime : Nat → Nat) (cond : Nat → Bool) (condTime : Nat → Nat)
    (n j : Nat) (e : String) (hj1 : 1 ≤ j) (hjn : j ≤ n)
    (hprev : ∀ m, m < j - 1 → click m = Except.ok () ∧ cond m = false)
    (herr : click (j - 1) = Except.error e) :
    (openAddressBookModal click clickTime cond condTime 2000 500 n).1 = j ∧
    (openAddressBookModal click clickTime cond condTime 2000 500 n).2.2 = Except.error e := by
  have h := retryAux_clickError click clickTime cond condTime 2000 500 e (j - 1) n 0
    (fun m hm => by simpa using hprev m hm) (by simpa using herr) (by omega)
  obtain ⟨hc, _⟩ := openAddressBookModal_clicks click clickTime cond condTime 2000 500 n
  refine ⟨?_, openAddressBookModal_of_error click clickTime cond condTime 2000 500 n e h.2⟩
  rw [hc, h.1]
  omega

/-- Witness for C4: the click rejects on attempt 2 of 3; the loop stops
at 2 clicks with the click's error. -/
theorem modal_retry_click_error_propagates_witness :
    (openAddressBookModal (fun i => if i = 1 then Except.error "boom" else Except.ok ())
      (fun _ => 0) (fun _ => false) (fun _ => 0) 2000 500 3).1 = 2 ∧
    (openAddressBookModal (fun i => if i = 1 then Except.error "boom" else Except.ok ())
      (fun _ => 0) (fun _ => false) (fun _ => 0) 2000 500 3).2.2 =
      Except.error "boom" :=
  modal_retry_click_error_propagates
    (fun i => if i = 1 then Except.error "boom" else Except.ok ())
    (fun _ => 0) (fun _ => false) (fun _ => 0) 3 2 "boom" (by decide) (by decide)
    (fun m hm => by interval_cases m <;> exact ⟨rfl, rfl⟩) rfl

/-- C8: with the per-attempt condition timeout and the retry delay fixed
(2000 ms and 500 ms, as in the code), the total elapsed time at the point
of convergence failure is monotonically non-decreasing in the attempt
bound: failing after `n₁ ≤ n₂` attempts takes no longer than failing
after `n₂`. -/
theorem modal_retry_elapsed_monotone (click : Nat → Except String Unit)
    (clickTime : Nat → Nat) (cond : Nat → Bool) (condTime : Nat → Nat)
    (n₁ n₂ : Nat) (hcond : ∀ j, cond j = false)
    (hclick : ∀ j, click j = Except.ok ()) (hle : n₁ ≤ n₂) :
    (openAddressBookModal click clickTime cond condTime 2000 500 n₁).2.1 ≤
    (openAddressBookModal click clickTime cond condTime 2000 500 n₂).2.1 := by
  obtain ⟨_, he₁⟩ := openAddressBookModal_clicks click clickTime cond condTime 2000 500 n₁
  obtain ⟨_, he₂⟩ := openAddressBookModal_clicks click clickTime cond condTime 2000 500 n₂
  rw [he₁, he₂]
  exact retryAux_elapsed_mono click clickTime cond condTime 2000 500 hcond hclick n₁ n₂ hle 0

/-- Witness for C8: two attempts take no longer than three. -/
theorem modal_retry_elapsed_monotone_witness :
    (openAddressBookModal (fun _ => Except.ok ()) (fun _ => 0) (fun _ => false)
      (fun _ => 0) 2000 500 2).2.1 ≤
    (openAddressBookModal (fun _ => Except.ok ()) (fun _ => 0) (fun _ => false)
      (fun _ => 0) 2000 500 3).2.1 :=
  modal_retry_elapsed_monotone (fun _ => Except.ok ()) (fun _ => 0) (fun _ => false)
    (fun _ => 0) 2 3 (fun _ => rfl) (fun _ => rfl) (by decide)

/-- C5 counterexample: `waitForOrderCreated` returns success although the
post-save redirect never happened within its timeout and no success
message appeared — the convergence timeout of its awaited condition is
swallowed, refuting the claim that no wait operation in the
order-creation flow silently returns success. -/
theorem waitForOrderCreated_counterexample :
    waitForOrderCreated false (Except.ok false) (Except.ok "") = Except.ok () := rfl

/-- C5 amended: the Address Book modal-open retry does surface its
convergence timeout as a thrown error, but `waitForOrderCreated`
deliberately tolerates the awaited post-save redirect never happening:
whenever no success message is visible it returns success regardless of
the redirect. -/
theorem convergence_timeout_surfacing (redirectHappened : Bool)
    (msgText : Except String String) :
    waitForOrderCreated redirectHappened (Except.ok false) msgText = Except.ok () ∧
    ∀ (click : Nat → Except String Unit) (clickTime : Nat → Nat)
      (cond : Nat → Bool) (condTime : Nat → Nat),
      (∀ j, cond j = false) → (∀ j, click j = Except.ok ()) →
      (startCreateOrderFlowModalStep click clickTime cond condTime).2.2 =
        Except.error "Failed to open Address Book modal after 3 attempts." := by
  refine ⟨rfl, fun click clickTime cond condTime hcond hclick => ?_⟩
  exact (openAddressBookModal_allFalse click clickTime cond condTime 2000 500 3
    hcond hclick).2

/-- Witness for the amended C5. -/
theorem convergence_timeout_surfacing_witness :
    waitForOrderCreated false (Except.ok false) (Except.ok "saved") = Except.ok () ∧
    ∀ (click : Nat → Except String Unit) (clickTime : Nat → Nat)
      (cond : Nat → Bool) (condTime : Nat → Nat),
      (∀ j, cond j = false) → (∀ j, click j = Except.ok ()) →
      (startCreateOrderFlowModalStep click clickTime cond condTime).2.2 =
        Except.error "Failed to open Address Book modal after 3 attempts." :=
  convergence_timeout_surfacing false (Except.ok "saved")

/-- C6: the transient processing-indicator probe of
`waitForAddressBookToLoad` treats the indicator never appearing within
its 2-second probe window as a non-error (whatever the outcome of the
hidden-wait would have been), and likewise proceeds normally when the
indicator appears and then disappears. -/
theorem transient_indicator_tolerated (hides : Except String Unit) :
    waitForAddressBookToLoad (Except.ok ()) (Except.ok false) hides
      (Except.ok ()) (Except.ok ()) = Except.ok () ∧
    waitForAddressBookToLoad (Except.ok ()) (Except.ok true) (Except.ok ())
      (Except.ok ()) (Except.ok ()) = Except.ok () := by
  constructor
  · cases hides <;> rfl
  · rfl

/-- Witness for C6. -/
theorem transient_indicator_tolerated_witness :
    waitForAddressBookToLoad (Except.ok ()) (Except.ok false) (Except.error "Timeout")
      (Except.ok ()) (Except.ok ()) = Except.ok () ∧
    waitForAddressBookToLoad (Except.ok ()) (Except.ok true) (Except.ok ())
      (Except.ok ()) (Except.ok ()) = Except.ok () :=
  transient_indicator_tolerated (Except.error "Timeout")

/-- Every value kept by the fallback filter comes from an option that is
not hidden and carries that exact non-blank value. -/
lemma mem_availableUspsOptions (opts : List ShipOption) (v : List Char)
    (hv : v ∈ availableUspsOptions opts) :
    ∃ o ∈ opts, o.value = some v ∧ isHiddenStyle o.style = false ∧ csvTrim v ≠ [] := by
  obtain ⟨o, ho, hfo⟩ := List.mem_filterMap.mp hv
  rcases hov : o.value with _ | w
  · rw [hov] at hfo
    simp at hfo
  · rw [hov] at hfo
    by_cases h1 : isHiddenStyle o.style
    · simp [h1] at hfo
    · by_cases h2 : csvTrim w = []
      · simp [h1, h2] at hfo
      · simp [h1, h2] at hfo
        subst hfo
        exact ⟨o, ho, hov, by simpa using h1, h2⟩

/-- C7: when the preferred method "EM" is unavailable, the fallback either
raises the "No available USPS shipping methods found" error (exactly when
the set of visible non-blank-value USPS options is empty) or selects the
member of that set at the random index, which — `Math.random()` lying in
`[0, 1)` — is always a member of the set. -/
theorem shipMethod_fallback_spec (opts : List ShipOption) (randomIndex : Nat → Nat)
    (hrand : ∀ len, 0 < len → randomIndex len < len) :
    (availableUspsOptions opts = [] →
      selectShipMethodFallback opts randomIndex =
        Except.error "No available USPS shipping methods found") ∧
    (availableUspsOptions opts ≠ [] →
      ∃ v, selectShipMethodFallback opts randomIndex = Except.ok v ∧
        v ∈ availableUspsOptions opts ∧
        ∃ o ∈ opts, o.value = some v ∧ isHiddenStyle o.style = false ∧ csvTrim v ≠ []) := by
  constructor
  · intro h
    unfold selectShipMethodFallback
    simp [h]
  · intro h
    have hpos : 0 < (availableUspsOptions opts).length := List.length_pos.mpr h
    have hidx := hrand _ hpos
    have hmem : (availableUspsOptions opts).getD
        (randomIndex (availableUspsOptions opts).length) [] ∈ availableUspsOptions opts := by
      rw [List.getD_eq_getElem _ _ hidx]
      exact List.getElem_mem _
    refine ⟨(availableUspsOptions opts).getD
      (randomIndex (availableUspsOptions opts).length) [], ?_, hmem,
      mem_availableUspsOptions opts _ hmem⟩
    unfold selectShipMethodFallback
    simp [Nat.pos_iff_ne_zero.mp hpos]

/-- Witness for C7: one hidden option and one visible one; the fallback
selects the visible option's value. -/
theorem shipMethod_fallback_spec_witness :
    (availableUspsOptions
        [⟨some "display:none".toList, some "PM".toList⟩, ⟨none, some "FC".toList⟩] = [] →
      selectShipMethodFallback
        [⟨some "display:none".toList, some "PM".toList⟩, ⟨none, some "FC".toList⟩]
        (fun _ => 0) = Except.error "No available USPS shipping methods found") ∧
    (availableUspsOptions
        [⟨some "display:none".toList, some "PM".toList⟩, ⟨none, some "FC".toList⟩] ≠ [] →
      ∃ v, selectShipMethodFallback
          [⟨some "display:none".toList, some "PM".toList⟩, ⟨none, some "FC".toList⟩]
          (fun _ => 0) = Except.ok v ∧
        v ∈ availableUspsOptions
          [⟨some "display:none".toList, some "PM".toList⟩, ⟨none, some "FC".toList⟩] ∧
        ∃ o ∈ [⟨some "display:none".toList, some "PM".toList⟩,
            (⟨none, some "FC".toList⟩ : ShipOption)],
          o.value = some v ∧ isHiddenStyle o.style = false ∧ csvTrim v ≠ []) :=
  shipMethod_fallback_spec
    [⟨some "display:none".toList, some "PM".toList⟩, ⟨none, some "FC".toList⟩]
    (fun _ => 0) (fun _ h => h)

/-- C9: `parseCsvLine` always returns at least one field; the number of
fields is the number of commas met outside double quotes plus one (so it
splits only at unquoted commas, a comma inside quotes being appended to
the current field); a doubled quote inside a quoted region contributes
one literal quote character to the current field; and every returned
field is whitespace-trimmed (no leading or trailing whitespace
character). -/
theorem parseCsvLine_spec (line : List Char) :
    parseCsvLine line ≠ [] ∧
    (parseCsvLine line).length = countUnquotedCommas false line + 1 ∧
    (∀ values current rest, parseCsvAux values current true ('"' :: '"' :: rest) =
      parseCsvAux values (current ++ ['"']) true rest) ∧
    (∀ values current rest, parseCsvAux values current true (',' :: rest) =
      parseCsvAux values (current ++ [',']) true rest) ∧
    ∀ f ∈ parseCsvLine line,
      (∀ c, f.head? = some c → c.isWhitespace = false) ∧
      (∀ c, f.getLast? = some c → c.isWhitespace = false) := by
  have hlen : (parseCsvLine line).length = countUnquotedCommas false line + 1 := by
    unfold parseCsvLine
    rw [List.length_map, parseCsvAux_length]
    simp only [List.length_nil]
    omega
  refine ⟨?_, hlen, fun _ _ _ => rfl, fun _ _ _ => rfl, ?_⟩
  · intro hnil
    rw [hnil] at hlen
    simp at hlen
  · intro f hf
    obtain ⟨g, _, rfl⟩ := List.mem_map.mp hf
    exact ⟨fun c hc => csvTrim_head?_not_ws g c hc,
      fun c hc => csvTrim_getLast?_not_ws g c hc⟩

/-- Witness for C9, at the line `a,"b,c", d `. -/
theorem parseCsvLine_spec_witness :
    parseCsvLine ("a,\"b,c\", d ".toList) ≠ [] ∧
    (parseCsvLine ("a,\"b,c\", d ".toList)).length =
      countUnquotedCommas false ("a,\"b,c\", d ".toList) + 1 ∧
    (∀ values current rest, parseCsvAux values current true ('"' :: '"' :: rest) =
      parseCsvAux values (current ++ ['"']) true rest) ∧
    (∀ values current rest, parseCsvAux values current true (',' :: rest) =
      parseCsvAux values (current ++ [',']) true rest) ∧
    ∀ f ∈ parseCsvLine ("a,\"b,c\", d ".toList),
      (∀ c, f.head? = some c → c.isWhitespace = false) ∧
      (∀ c, f.getLast? = some c → c.isWhitespace = false) :=
  parseCsvLine_spec ("a,\"b,c\", d ".toList)

/-- C10: `isElementVisible` and `isElementNotVisible` are total at the
public interface: for every underlying wait behaviour and every optional
timeout they return `Except.ok` of a boolean (never a propagated
exception), and a wait that rejects is converted to the return value
`false`. -/
theorem isElementVisible_total (waitForVisible waitForHidden : Nat → Except String Unit)
    (timeout : Option Nat) :
    (∃ b, isElementVisible waitForVisible timeout = Except.ok b) ∧
    (∃ b, isElementNotVisible waitForHidden timeout = Except.ok b) ∧
    (∀ e, waitForVisible (timeout.getD defaultTimeout) = Except.error e →
      isElementVisible waitForVisible timeout = Except.ok false) ∧
    (∀ e, waitForHidden (timeout.getD defaultTimeout) = Except.error e →
      isElementNotVisible waitForHidden timeout = Except.ok false) ∧
    (∀ e, isElementVisible waitForVisible timeout ≠ Except.error e) ∧
    (∀ e, isElementNotVisible waitForHidden timeout ≠ Except.error e) := by
  unfold isElementVisible isElementNotVisible
  rcases h1 : waitForVisible (timeout.getD defaultTimeout) with e | u <;>
    rcases h2 : waitForHidden (timeout.getD defaultTimeout) with e2 | u2 <;>
    simp [h1, h2]

/-- Witness for C10: a visibility wait that times out yields `ok false`;
a hidden wait that succeeds yields `ok true`. -/
theorem isElementVisible_total_witness :
    (∃ b, isElementVisible (fun _ => Except.error "Timeout 15000ms exceeded") none =
      Except.ok b) ∧
    (∃ b, isElementNotVisible (fun _ => Except.ok ()) none = Except.ok b) ∧
    isElementVisible (fun _ => Except.error "Timeout 15000ms exceeded") none =
      Except.ok false :=
  ⟨(isElementVisible_total (fun _ => Except.error "Timeout 15000ms exceeded")
      (fun _ => Except.ok ()) none).1,
   (isElementVisible_total (fun _ => Except.error "Timeout 15000ms exceeded")
      (fun _ => Except.ok ()) none).2.1,
   (isElementVisible_total (fun _ => Except.error "Timeout 15000ms exceeded")
      (fun _ => Except.ok ()) none).2.2.1 "Timeout 15000ms exceeded" rfl⟩

end ShipEdge
